import Mathlib

/-!
Shallow embedding of the new-relic-scim-go-client repository
(package newrelicscim: client.go / user.go / group.go).

Modelling conventions:
* JSON documents are modelled by the inductive `JVal`; a raw HTTP response
  body is `Option JVal` (`none` stands for bytes that are not valid JSON).
* `encoding/json` struct decoding is modelled field by field: a missing or
  null field leaves the zero value, a present field of the wrong JSON type
  is a decode error, unknown fields are ignored, duplicate keys keep the
  last occurrence.  JSON numbers are modelled as integers and `time.Time`
  fields as their timestamp strings; neither is touched by any claim.
* A Go nil slice and an empty slice are both modelled as `[]`.
* Go panics (indexing an empty slice) are modelled by the `OpOutcome.panic`
  constructor; a normal return of the Go triple
  `(success, errorShape, err)` is `OpOutcome.ret success errorShape err`
  with `err = none` standing for a nil error.
* The HTTP exchange performed by `http.Client.Do` plus body read is an
  environment input `HttpResult`: either a network error or a response
  with a status code and raw body.
-/

namespace NewRelicScim

inductive JVal where
  | jnull : JVal
  | jbool : Bool → JVal
  | jnum : Int → JVal
  | jstr : String → JVal
  | jarr : List JVal → JVal
  | jobj : List (String × JVal) → JVal

/-- Field lookup in a JSON object; like encoding/json, a duplicated key
keeps the last occurrence. -/
def getField (fields : List (String × JVal)) (key : String) : Option JVal :=
  fields.foldl (fun acc kv => if kv.1 = key then some kv.2 else acc) none

/-- Decode a struct field of Go type string: absent or null leaves the zero
value, a JSON string is taken verbatim, anything else is a type error. -/
def decodeString : Option JVal → Except String String
  | none => .ok ""
  | some .jnull => .ok ""
  | some (.jstr s) => .ok s
  | some _ => .error "json: cannot unmarshal value into Go value of type string"

/-- Decode a struct field of Go type bool. -/
def decodeBool : Option JVal → Except String Bool
  | none => .ok false
  | some .jnull => .ok false
  | some (.jbool b) => .ok b
  | some _ => .error "json: cannot unmarshal value into Go value of type bool"

/-- Decode a struct field of Go type int. -/
def decodeInt : Option JVal → Except String Int
  | none => .ok 0
  | some .jnull => .ok 0
  | some (.jnum n) => .ok n
  | some _ => .error "json: cannot unmarshal value into Go value of type int"

/-- Decode the elements of a JSON array into Go strings. -/
def decodeStringElems : List JVal → Except String (List String)
  | [] => .ok []
  | .jstr s :: rest => do
      let tail ← decodeStringElems rest
      .ok (s :: tail)
  | .jnull :: rest => do
      let tail ← decodeStringElems rest
      .ok ("" :: tail)
  | _ :: _ => .error "json: cannot unmarshal value into Go value of type string"

/-- Decode a struct field of Go type []string. -/
def decodeStringList : Option JVal → Except String (List String)
  | none => .ok []
  | some .jnull => .ok []
  | some (.jarr xs) => decodeStringElems xs
  | some _ => .error "json: cannot unmarshal value into Go value of type []string"

/-- Decode the elements of a JSON array with an element decoder; a null
element leaves the element zero value. -/
def decodeElems (dec : List (String × JVal) → Except String α) (z : α) :
    List JVal → Except String (List α)
  | [] => .ok []
  | .jobj fs :: rest => do
      let x ← dec fs
      let tail ← decodeElems dec z rest
      .ok (x :: tail)
  | .jnull :: rest => do
      let tail ← decodeElems dec z rest
      .ok (z :: tail)
  | _ :: _ => .error "json: cannot unmarshal value into Go value of type struct"

/-- Decode a struct field of Go slice-of-struct type. -/
def decodeStructList (dec : List (String × JVal) → Except String α) (z : α) :
    Option JVal → Except String (List α)
  | none => .ok []
  | some .jnull => .ok []
  | some (.jarr xs) => decodeElems dec z xs
  | some _ => .error "json: cannot unmarshal value into Go value of type slice"

/-- Decode a struct field of nested struct type: absent or null leaves the
zero value. -/
def decodeStruct (dec : List (String × JVal) → Except String α) (z : α) :
    Option JVal → Except String α
  | none => .ok z
  | some .jnull => .ok z
  | some (.jobj fs) => dec fs
  | some _ => .error "json: cannot unmarshal value into Go value of type struct"

/-- Decode a struct field of Go type interface\x7b\x7d: any JSON value is
accepted; absent leaves nil (modelled as jnull). -/
def decodeAny : Option JVal → Except String JVal
  | none => .ok .jnull
  | some v => .ok v

/-- Decode a struct field of Go type []interface\x7b\x7d. -/
def decodeAnyList : Option JVal → Except String (List JVal)
  | none => .ok []
  | some .jnull => .ok []
  | some (.jarr xs) => .ok xs
  | some _ => .error "json: cannot unmarshal value into Go value of type slice"

-- ---------------------------------------------------------------------------
-- Wire structures (user.go and group.go)
-- ---------------------------------------------------------------------------

/-- The name sub-struct of User and UserResponse
(familyName, givenName). -/
structure NameParts where
  FamilyName : String
  GivenName : String
deriving DecidableEq

/-- The emails element of the outgoing User (Primary before Value, as
declared in the Go source). -/
structure UserEmail where
  Primary : Bool
  Value : String
deriving DecidableEq

/-- The emails element of the incoming responses (Value before Primary). -/
structure ResponseEmail where
  Value : String
  Primary : Bool
deriving DecidableEq

/-- The meta sub-struct of the response shapes; the two time.Time fields
are modelled as their timestamp strings. -/
structure MetaBlock where
  ResourceType : String
  Created : String
  LastModified : String
deriving DecidableEq

/-- Outgoing User (user.go). -/
structure User where
  Schemas : List String
  UserName : String
  Name : NameParts
  Emails : List UserEmail
  Active : Bool
  Timezone : String
deriving DecidableEq

def zeroNameParts : NameParts := NameParts.mk "" ""

def zeroMetaBlock : MetaBlock := MetaBlock.mk "" "" ""

def zeroUser : User := User.mk [] "" zeroNameParts [] false ""

/-- User.fill_defaults (user.go lines 29-39): sets the schema list and the
timezone when they are empty.  The Go pointer-receiver mutation is modelled
as a function User → User. -/
def User.fill_defaults (u : User) : User :=
  let u := if u.Schemas.length = 0 then
    User.mk ["urn:ietf:params:scim:schemas:core:2.0:User"] u.UserName u.Name u.Emails u.Active u.Timezone
    else u
  if u.Timezone = "" then
    User.mk u.Schemas u.UserName u.Name u.Emails u.Active "Europe/Istanbul"
  else u

/-- Incoming UserResponse (user.go). -/
structure UserResponse where
  Schemas : List String
  ID : String
  ExternalID : String
  UserName : String
  Name : NameParts
  Emails : List ResponseEmail
  Timezone : String
  Active : Bool
  Meta : MetaBlock
  Groups : List JVal

def zeroUserResponse : UserResponse :=
  UserResponse.mk [] "" "" "" zeroNameParts [] "" false zeroMetaBlock []

/-- Incoming UserErrorResponse (user.go). -/
structure UserErrorResponse where
  Schemas : List String
  ScimType : String
  Detail : String
  Status : String
deriving DecidableEq

def zeroUserErrorResponse : UserErrorResponse := UserErrorResponse.mk [] "" "" ""

/-- The groups element of the UsersResponse resource entries; the Go field
is named Type, a Lean keyword, hence the trailing underscore. -/
structure GroupRef where
  Type_ : String
  Value : String
deriving DecidableEq

/-- The Resources element of UsersResponse; ExternalID is interface\x7b\x7d
there, modelled as a JVal. -/
structure UserResource where
  Schemas : List String
  ID : String
  ExternalID : JVal
  UserName : String
  Name : NameParts
  Emails : List ResponseEmail
  Timezone : String
  Active : Bool
  Meta : MetaBlock
  Groups : List GroupRef

def zeroUserResource : UserResource :=
  UserResource.mk [] "" .jnull "" zeroNameParts [] "" false zeroMetaBlock []

/-- Incoming UsersResponse (user.go). -/
structure UsersResponse where
  TotalResults : Int
  Schemas : List String
  Resources : List UserResource

def zeroUsersResponse : UsersResponse := UsersResponse.mk 0 [] []

/-- The vendor-extension sub-struct of UserTypeBody. -/
structure NrUserTypeBlock where
  NrUserType : String
deriving DecidableEq

/-- Outgoing UserTypeBody (user.go): a schema-tagged envelope whose single
attribute key is the newrelic 2.1 vendor-extension URN. -/
structure UserTypeBody where
  Schemas : List String
  UrnIetfParamsScimSchemasExtensionNewrelic21User : NrUserTypeBlock
deriving DecidableEq

/-- UserTypeBody.fill_defaults (user.go lines 108-115): defaults the schema
list to the core User URN followed by the newrelic 2.0 extension URN. -/
def UserTypeBody.fill_defaults (u : UserTypeBody) : UserTypeBody :=
  if u.Schemas.length = 0 then
    UserTypeBody.mk
      ["urn:ietf:params:scim:schemas:core:2.0:User",
       "urn:ietf:params:scim:schemas:extension:newrelic:2.0:User"]
      u.UrnIetfParamsScimSchemasExtensionNewrelic21User
  else u

/-- Outgoing Group (group.go). -/
structure Group where
  Schemas : List String
  DisplayName : String
deriving DecidableEq

def zeroGroup : Group := Group.mk [] ""

/-- Group.fill_defaults (group.go): defaults the schema list to the core
Group URN. -/
def Group.fill_defaults (g : Group) : Group :=
  if g.Schemas.length = 0 then
    Group.mk ["urn:ietf:params:scim:schemas:core:2.0:Group"] g.DisplayName
  else g

/-- Incoming GroupResponse (group.go). -/
structure GroupResponse where
  Schemas : List String
  ID : String
  DisplayName : String
  Meta : MetaBlock
  Members : List JVal

def zeroGroupResponse : GroupResponse := GroupResponse.mk [] "" "" zeroMetaBlock []

/-- Incoming GroupErrorResponse (group.go); same shape as
UserErrorResponse, distinct type. -/
structure GroupErrorResponse where
  Schemas : List String
  ScimType : String
  Detail : String
  Status : String
deriving DecidableEq

def zeroGroupErrorResponse : GroupErrorResponse := GroupErrorResponse.mk [] "" "" ""

/-- The Resources element of GroupsResponse. -/
structure GroupResource where
  Schemas : List String
  ID : String
  DisplayName : String
  Meta : MetaBlock
  Members : List JVal

def zeroGroupResource : GroupResource := GroupResource.mk [] "" "" zeroMetaBlock []

/-- Incoming GroupsResponse (group.go). -/
structure GroupsResponse where
  TotalResults : Int
  Schemas : List String
  Resources : List GroupResource

def zeroGroupsResponse : GroupsResponse := GroupsResponse.mk 0 [] []

/-- The value element of an UpdateGroup patch operation. -/
structure ValueEntry where
  Value : String
deriving DecidableEq

/-- One patch operation of UpdateGroup (op, path, value). -/
structure OperationEntry where
  Op : String
  Path : String
  Value : List ValueEntry
deriving DecidableEq

/-- Outgoing UpdateGroup patch envelope (group.go). -/
structure UpdateGroup where
  Schemas : List String
  Operations : List OperationEntry
deriving DecidableEq

/-- UpdateGroup.fill_defaults (group.go): defaults the schema list to the
PatchOp message URN. -/
def UpdateGroup.fill_defaults (ug : UpdateGroup) : UpdateGroup :=
  if ug.Schemas.length = 0 then
    UpdateGroup.mk ["urn:ietf:params:scim:api:messages:2.0:PatchOp"] ug.Operations
  else ug

-- ---------------------------------------------------------------------------
-- Marshalling (json.Marshal of the outgoing shapes, field order as declared)
-- ---------------------------------------------------------------------------

/-- JSON string escaping used by the renderer; the quote and the backslash
are the only escapes the payloads of this client can need. -/
def escapeJsonString (s : String) : String :=
  s.data.foldl
    (fun acc c =>
      if c = '\"' then acc ++ "\\\""
      else if c = '\\' then acc ++ "\\\\"
      else acc ++ String.singleton c) ""

mutual

/-- Render a JSON value to its wire string, matching json.Marshal output
for the payloads this client produces (no spaces, declared field order). -/
def renderJVal : JVal → String
  | .jnull => "null"
  | .jbool true => "true"
  | .jbool false => "false"
  | .jnum n => toString n
  | .jstr s => "\"" ++ escapeJsonString s ++ "\""
  | .jarr xs => "[" ++ renderJValElems xs ++ "]"
  | .jobj fs => "\x7b" ++ renderJValFields fs ++ "\x7d"

def renderJValElems : List JVal → String
  | [] => ""
  | [x] => renderJVal x
  | x :: y :: rest => renderJVal x ++ "," ++ renderJValElems (y :: rest)

def renderJValFields : List (String × JVal) → String
  | [] => ""
  | [kv] => "\"" ++ escapeJsonString kv.1 ++ "\":" ++ renderJVal kv.2
  | kv :: kv2 :: rest =>
      "\"" ++ escapeJsonString kv.1 ++ "\":" ++ renderJVal kv.2 ++ "," ++
        renderJValFields (kv2 :: rest)

end

def marshalNameParts (n : NameParts) : JVal :=
  .jobj [("familyName", .jstr n.FamilyName), ("givenName", .jstr n.GivenName)]

def marshalUserEmail (e : UserEmail) : JVal :=
  .jobj [("primary", .jbool e.Primary), ("value", .jstr e.Value)]

/-- json.Marshal of the outgoing User. -/
def marshalUser (u : User) : JVal :=
  .jobj
    [("schemas", .jarr (u.Schemas.map .jstr)),
     ("userName", .jstr u.UserName),
     ("name", marshalNameParts u.Name),
     ("emails", .jarr (u.Emails.map marshalUserEmail)),
     ("active", .jbool u.Active),
     ("timezone", .jstr u.Timezone)]

/-- json.Marshal of the outgoing UserTypeBody; the vendor attribute key is
the newrelic 2.1 extension URN taken from the Go struct tag. -/
def marshalUserTypeBody (u : UserTypeBody) : JVal :=
  .jobj
    [("schemas", .jarr (u.Schemas.map .jstr)),
     ("urn:ietf:params:scim:schemas:extension:newrelic:2.1:User",
      .jobj [("nrUserType", .jstr u.UrnIetfParamsScimSchemasExtensionNewrelic21User.NrUserType)])]

/-- json.Marshal of the outgoing Group. -/
def marshalGroup (g : Group) : JVal :=
  .jobj
    [("schemas", .jarr (g.Schemas.map .jstr)),
     ("displayName", .jstr g.DisplayName)]

def marshalValueEntry (v : ValueEntry) : JVal :=
  .jobj [("value", .jstr v.Value)]

def marshalOperationEntry (o : OperationEntry) : JVal :=
  .jobj
    [("op", .jstr o.Op),
     ("path", .jstr o.Path),
     ("value", .jarr (o.Value.map marshalValueEntry))]

/-- json.Marshal of the outgoing UpdateGroup patch envelope. -/
def marshalUpdateGroup (ug : UpdateGroup) : JVal :=
  .jobj
    [("schemas", .jarr (ug.Schemas.map .jstr)),
     ("Operations", .jarr (ug.Operations.map marshalOperationEntry))]

-- ---------------------------------------------------------------------------
-- Unmarshalling (json.Unmarshal into the incoming shapes)
-- ---------------------------------------------------------------------------

def decodeNamePartsFields (fs : List (String × JVal)) : Except String NameParts := do
  let familyName ← decodeString (getField fs "familyName")
  let givenName ← decodeString (getField fs "givenName")
  .ok (NameParts.mk familyName givenName)

def decodeResponseEmailFields (fs : List (String × JVal)) : Except String ResponseEmail := do
  let value ← decodeString (getField fs "value")
  let primary ← decodeBool (getField fs "primary")
  .ok (ResponseEmail.mk value primary)

def decodeMetaBlockFields (fs : List (String × JVal)) : Except String MetaBlock := do
  let resourceType ← decodeString (getField fs "resourceType")
  let created ← decodeString (getField fs "created")
  let lastModified ← decodeString (getField fs "lastModified")
  .ok (MetaBlock.mk resourceType created lastModified)

def decodeUserResponseFields (fs : List (String × JVal)) : Except String UserResponse := do
  let schemas ← decodeStringList (getField fs "schemas")
  let id ← decodeString (getField fs "id")
  let externalId ← decodeString (getField fs "externalId")
  let userName ← decodeString (getField fs "userName")
  let name ← decodeStruct decodeNamePartsFields zeroNameParts (getField fs "name")
  let emails ← decodeStructList decodeResponseEmailFields (ResponseEmail.mk "" false) (getField fs "emails")
  let timezone ← decodeString (getField fs "timezone")
  let active ← decodeBool (getField fs "active")
  let meta ← decodeStruct decodeMetaBlockFields zeroMetaBlock (getField fs "meta")
  let groups ← decodeAnyList (getField fs "groups")
  .ok (UserResponse.mk schemas id externalId userName name emails timezone active meta groups)

def unmarshalUserResponse : Option JVal → Except String UserResponse
  | none => .error "unexpected end of JSON input"
  | some .jnull => .ok zeroUserResponse
  | some (.jobj fs) => decodeUserResponseFields fs
  | some _ => .error "json: cannot unmarshal value into Go value of type UserResponse"

def decodeUserErrorResponseFields (fs : List (String × JVal)) : Except String UserErrorResponse := do
  let schemas ← decodeStringList (getField fs "schemas")
  let scimType ← decodeString (getField fs "scimType")
  let detail ← decodeString (getField fs "detail")
  let status ← decodeString (getField fs "status")
  .ok (UserErrorResponse.mk schemas scimType detail status)

def unmarshalUserErrorResponse : Option JVal → Except String UserErrorResponse
  | none => .error "unexpected end of JSON input"
  | some .jnull => .ok zeroUserErrorResponse
  | some (.jobj fs) => decodeUserErrorResponseFields fs
  | some _ => .error "json: cannot unmarshal value into Go value of type UserErrorResponse"

def decodeGroupRefFields (fs : List (String × JVal)) : Except String GroupRef := do
  let type_ ← decodeString (getField fs "type")
  let value ← decodeString (getField fs "value")
  .ok (GroupRef.mk type_ value)

def decodeUserResourceFields (fs : List (String × JVal)) : Except String UserResource := do
  let schemas ← decodeStringList (getField fs "schemas")
  let id ← decodeString (getField fs "id")
  let externalId ← decodeAny (getField fs "externalId")
  let userName ← decodeString (getField fs "userName")
  let name ← decodeStruct decodeNamePartsFields zeroNameParts (getField fs "name")
  let emails ← decodeStructList decodeResponseEmailFields (ResponseEmail.mk "" false) (getField fs "emails")
  let timezone ← decodeString (getField fs "timezone")
  let active ← decodeBool (getField fs "active")
  let meta ← decodeStruct decodeMetaBlockFields zeroMetaBlock (getField fs "meta")
  let groups ← decodeStructList decodeGroupRefFields (GroupRef.mk "" "") (getField fs "groups")
  .ok (UserResource.mk schemas id externalId userName name emails timezone active meta groups)

def decodeUsersResponseFields (fs : List (String × JVal)) : Except String UsersResponse := do
  let totalResults ← decodeInt (getField fs "totalResults")
  let schemas ← decodeStringList (getField fs "schemas")
  let resources ← decodeStructList decodeUserResourceFields zeroUserResource (getField fs "Resources")
  .ok (UsersResponse.mk totalResults schemas resources)

def unmarshalUsersResponse : Option JVal → Except String UsersResponse
  | none => .error "unexpected end of JSON input"
  | some .jnull => .ok zeroUsersResponse
  | some (.jobj fs) => decodeUsersResponseFields fs
  | some _ => .error "json: cannot unmarshal value into Go value of type UsersResponse"

def decodeGroupResponseFields (fs : List (String × JVal)) : Except String GroupResponse := do
  let schemas ← decodeStringList (getField fs "schemas")
  let id ← decodeString (getField fs "id")
  let displayName ← decodeString (getField fs "displayName")
  let meta ← decodeStruct decodeMetaBlockFields zeroMetaBlock (getField fs "meta")
  let members ← decodeAnyList (getField fs "members")
  .ok (GroupResponse.mk schemas id displayName meta members)

def unmarshalGroupResponse : Option JVal → Except String GroupResponse
  | none => .error "unexpected end of JSON input"
  | some .jnull => .ok zeroGroupResponse
  | some (.jobj fs) => decodeGroupResponseFields fs
  | some _ => .error "json: cannot unmarshal value into Go value of type GroupResponse"

def decodeGroupErrorResponseFields (fs : List (String × JVal)) : Except String GroupErrorResponse := do
  let schemas ← decodeStringList (getField fs "schemas")
  let scimType ← decodeString (getField fs "scimType")
  let detail ← decodeString (getField fs "detail")
  let status ← decodeString (getField fs "status")
  .ok (GroupErrorResponse.mk schemas scimType detail status)

def unmarshalGroupErrorResponse : Option JVal → Except String GroupErrorResponse
  | none => .error "unexpected end of JSON input"
  | some .jnull => .ok zeroGroupErrorResponse
  | some (.jobj fs) => decodeGroupErrorResponseFields fs
  | some _ => .error "json: cannot unmarshal value into Go value of type GroupErrorResponse"

def decodeGroupResourceFields (fs : List (String × JVal)) : Except String GroupResource := do
  let schemas ← decodeStringList (getField fs "schemas")
  let id ← decodeString (getField fs "id")
  let displayName ← decodeString (getField fs "displayName")
  let meta ← decodeStruct decodeMetaBlockFields zeroMetaBlock (getField fs "meta")
  let members ← decodeAnyList (getField fs "members")
  .ok (GroupResource.mk schemas id displayName meta members)

def decodeGroupsResponseFields (fs : List (String × JVal)) : Except String GroupsResponse := do
  let totalResults ← decodeInt (getField fs "totalResults")
  let schemas ← decodeStringList (getField fs "schemas")
  let resources ← decodeStructList decodeGroupResourceFields zeroGroupResource (getField fs "Resources")
  .ok (GroupsResponse.mk totalResults schemas resources)

def unmarshalGroupsResponse : Option JVal → Except String GroupsResponse
  | none => .error "unexpected end of JSON input"
  | some .jnull => .ok zeroGroupsResponse
  | some (.jobj fs) => decodeGroupsResponseFields fs
  | some _ => .error "json: cannot unmarshal value into Go value of type GroupsResponse"

-- ---------------------------------------------------------------------------
-- Client and transport (client.go)
-- ---------------------------------------------------------------------------

/-- Client (client.go); the http.Client with its fixed 20 second timeout is
transport configuration outside the shallow embedding. -/
structure Client where
  BaseUrl : String
  ApiToken : String

/-- NewClient (client.go): fixed base URL, caller-supplied token. -/
def NewClient (apiToken : String) : Client :=
  Client.mk "https://scim-provisioning.service.newrelic.com/scim/v2/" apiToken

/-- An HTTP request as built by the operations: method, URL, query
parameters in their pre-encoding form, headers, and the JSON body (none for
bodyless requests). -/
structure Request where
  method : String
  url : String
  query : List (String × String)
  headers : List (String × String)
  body : Option JVal

/-- What the HTTP exchange (http.Client.Do plus reading the body) produced:
a network error, or a response with its status code and raw body
(none = a body that is not valid JSON). -/
inductive HttpResult where
  | netError : String → HttpResult
  | response : Int → Option JVal → HttpResult

/-- The error values an operation can return: the transport error from
http.Client.Do, the non-2xx error built by doRequest (carrying the raw
body and the status code), or a json.Unmarshal error. -/
inductive GoError where
  | transportErr : String → GoError
  | httpError : Option JVal → Int → GoError
  | decodeError : String → GoError

/-- The status-checking core of doRequest (client.go lines 53-67): a
network failure is returned as is; a status code outside 200-299 becomes
an error carrying the raw body and the code; otherwise the raw body is
returned. -/
def doRequestCore (t : HttpResult) : Except GoError (Option JVal) :=
  match t with
  | .netError msg => .error (.transportErr msg)
  | .response statusCode body =>
      if ¬ (200 ≤ statusCode ∧ statusCode ≤ 299) then .error (.httpError body statusCode)
      else .ok body

/-- doRequest (client.go lines 49-68): sets the Authorization and
content-type headers on the request, then performs the exchange; the
returned pair is the request as sent and the transport result. -/
def Client.doRequest (c : Client) (req : Request) (t : HttpResult) :
    Request × Except GoError (Option JVal) :=
  let sent := Request.mk req.method req.url req.query
    [("Authorization", "Bearer " ++ c.ApiToken), ("content-type", "application/json")]
    req.body
  (sent, doRequestCore t)

-- ---------------------------------------------------------------------------
-- Resource operations (user.go and group.go)
-- ---------------------------------------------------------------------------

def userPath : String := "Users"

def groupPath : String := "Groups"

/-- The error-message schema URN used inline as the error-detection
sentinel in every body-parsing operation. -/
def errorSchemaUrn : String := "urn:ietf:params:scim:api:messages:2.0:Error"

/-- The result of one operation: either a Go panic (indexing the first
schema entry of an empty schema list), or the returned triple
(success shape, error shape, error value), with err = none for nil. -/
inductive OpOutcome (α : Type) (ε : Type) where
  | panic : String → OpOutcome α ε
  | ret : α → ε → Option GoError → OpOutcome α ε

/-- The response-handling tail shared verbatim by every body-parsing
operation (for example user.go lines 123-137): short-circuit on the
transport error; json.Unmarshal into the success shape, short-circuiting
on failure; read element 0 of the decoded schema list (a panic when the
list is empty); when it equals the error sentinel, json.Unmarshal the same
raw bytes into the error shape, short-circuiting on failure; finally
return both shapes and a nil error. -/
def parseScim (dec : Option JVal → Except String α) (schemasOf : α → List String)
    (decErr : Option JVal → Except String ε) (z : α) (zErr : ε)
    (tr : Except GoError (Option JVal)) : OpOutcome α ε :=
  match tr with
  | .error e => .ret z zErr (some e)
  | .ok body =>
      match dec body with
      | .error m => .ret z zErr (some (.decodeError m))
      | .ok s =>
          match schemasOf s with
          | [] => .panic "runtime error: index out of range [0] with length 0"
          | s0 :: _ =>
              if s0 = errorSchemaUrn then
                match decErr body with
                | .error m => .ret s zErr (some (.decodeError m))
                | .ok e => .ret s e none
              else .ret s zErr none

/-- UserList (user.go lines 117-138); note the method literal is "Get",
not "GET". -/
def Client.UserList (c : Client) (t : HttpResult) :
    Request × OpOutcome UsersResponse UserErrorResponse :=
  let fullUrl := c.BaseUrl ++ userPath
  let req := Request.mk "Get" fullUrl [] [] none
  let dr := c.doRequest req t
  (dr.1, parseScim unmarshalUsersResponse UsersResponse.Schemas
    unmarshalUserErrorResponse zeroUsersResponse zeroUserErrorResponse dr.2)

/-- GetUserByID (user.go lines 140-161). -/
def Client.GetUserByID (c : Client) (userID : String) (t : HttpResult) :
    Request × OpOutcome UserResponse UserErrorResponse :=
  let fullUrl := c.BaseUrl ++ userPath ++ "/" ++ userID
  let req := Request.mk "GET" fullUrl [] [] none
  let dr := c.doRequest req t
  (dr.1, parseScim unmarshalUserResponse UserResponse.Schemas
    unmarshalUserErrorResponse zeroUserResponse zeroUserErrorResponse dr.2)

/-- GetUserByName (user.go lines 163-195): a GET on the collection path
with a filter query parameter; the query is stored pre-encoding. -/
def Client.GetUserByName (c : Client) (userName : String) (t : HttpResult) :
    Request × OpOutcome UserResponse UserErrorResponse :=
  let fullUrl := c.BaseUrl ++ userPath
  let filter := "userName eq \"" ++ userName ++ "\""
  let req := Request.mk "GET" fullUrl [("filter", filter)] [] none
  let dr := c.doRequest req t
  (dr.1, parseScim unmarshalUserResponse UserResponse.Schemas
    unmarshalUserErrorResponse zeroUserResponse zeroUserErrorResponse dr.2)

/-- CreateUser (user.go lines 197-225): fill defaults, marshal, POST. -/
def Client.CreateUser (c : Client) (user : User) (t : HttpResult) :
    Request × OpOutcome UserResponse UserErrorResponse :=
  let fullUrl := c.BaseUrl ++ userPath
  let user := user.fill_defaults
  let postBody := marshalUser user
  let req := Request.mk "POST" fullUrl [] [] (some postBody)
  let dr := c.doRequest req t
  (dr.1, parseScim unmarshalUserResponse UserResponse.Schemas
    unmarshalUserErrorResponse zeroUserResponse zeroUserErrorResponse dr.2)

/-- UpdateUser (user.go lines 227-255): fill defaults, marshal, PUT to the
single-resource path. -/
def Client.UpdateUser (c : Client) (userID : String) (user : User) (t : HttpResult) :
    Request × OpOutcome UserResponse UserErrorResponse :=
  let fullUrl := c.BaseUrl ++ userPath ++ "/" ++ userID
  let user := user.fill_defaults
  let postBody := marshalUser user
  let req := Request.mk "PUT" fullUrl [] [] (some postBody)
  let dr := c.doRequest req t
  (dr.1, parseScim unmarshalUserResponse UserResponse.Schemas
    unmarshalUserErrorResponse zeroUserResponse zeroUserErrorResponse dr.2)

/-- The error-only tail of the two delete operations: the body returned by
doRequest is dropped, a doRequest error is returned, otherwise nil. -/
def deleteResult : Except GoError (Option JVal) → Option GoError
  | .error e => some e
  | .ok _ => none

/-- DeleteUser (user.go lines 257-271): DELETE on the single-resource
path; the response body is never decoded and only the error is returned. -/
def Client.DeleteUser (c : Client) (userID : String) (t : HttpResult) :
    Request × Option GoError :=
  let fullUrl := c.BaseUrl ++ userPath ++ "/" ++ userID
  let req := Request.mk "DELETE" fullUrl [] [] none
  let dr := c.doRequest req t
  (dr.1, deleteResult dr.2)

/-- UserType (user.go line 273): a Go int64 enumeration. -/
abbrev UserType := Int

def Full : UserType := 0

def Core : UserType := 1

def Basic : UserType := 2

/-- UserType.String (user.go lines 281-291). -/
def UserType.String (u : UserType) : String :=
  if u = Full then "Full User"
  else if u = Core then "Core User"
  else if u = Basic then "Basic User"
  else "unknown"

/-- ChangeUserType (user.go lines 293-326): builds a UserTypeBody whose
vendor attribute is the display string of the user type, fills defaults,
and PUTs it to the single-resource path. -/
def Client.ChangeUserType (c : Client) (userID : String) (userType : UserType)
    (t : HttpResult) : Request × OpOutcome UserResponse UserErrorResponse :=
  let fullUrl := c.BaseUrl ++ userPath ++ "/" ++ userID
  let userTypeBody := UserTypeBody.mk [] (NrUserTypeBlock.mk (UserType.String userType))
  let userTypeBody := userTypeBody.fill_defaults
  let putBody := marshalUserTypeBody userTypeBody
  let req := Request.mk "PUT" fullUrl [] [] (some putBody)
  let dr := c.doRequest req t
  (dr.1, parseScim unmarshalUserResponse UserResponse.Schemas
    unmarshalUserErrorResponse zeroUserResponse zeroUserErrorResponse dr.2)

/-- CreateGroup (group.go): builds a Group with the given display name,
fills defaults, marshals, POSTs to the collection path. -/
def Client.CreateGroup (c : Client) (groupName : String) (t : HttpResult) :
    Request × OpOutcome GroupResponse GroupErrorResponse :=
  let fullUrl := c.BaseUrl ++ groupPath
  let group := Group.mk [] groupName
  let group := group.fill_defaults
  let postBody := marshalGroup group
  let req := Request.mk "POST" fullUrl [] [] (some postBody)
  let dr := c.doRequest req t
  (dr.1, parseScim unmarshalGroupResponse GroupResponse.Schemas
    unmarshalGroupErrorResponse zeroGroupResponse zeroGroupErrorResponse dr.2)

/-- UpdateGroup the operation (group.go): same body as CreateGroup but
PUT, still to the collection path (no id segment). -/
def Client.UpdateGroup (c : Client) (groupName : String) (t : HttpResult) :
    Request × OpOutcome GroupResponse GroupErrorResponse :=
  let fullUrl := c.BaseUrl ++ groupPath
  let group := Group.mk [] groupName
  let group := group.fill_defaults
  let postBody := marshalGroup group
  let req := Request.mk "PUT" fullUrl [] [] (some postBody)
  let dr := c.doRequest req t
  (dr.1, parseScim unmarshalGroupResponse GroupResponse.Schemas
    unmarshalGroupErrorResponse zeroGroupResponse zeroGroupErrorResponse dr.2)

/-- GroupList (group.go); note the method literal is "Get", not "GET". -/
def Client.GroupList (c : Client) (t : HttpResult) :
    Request × OpOutcome GroupsResponse GroupErrorResponse :=
  let fullUrl := c.BaseUrl ++ groupPath
  let req := Request.mk "Get" fullUrl [] [] none
  let dr := c.doRequest req t
  (dr.1, parseScim unmarshalGroupsResponse GroupsResponse.Schemas
    unmarshalGroupErrorResponse zeroGroupsResponse zeroGroupErrorResponse dr.2)

/-- GetGroupByID (group.go); the success shape is GroupsResponse in the
source, not GroupResponse. -/
def Client.GetGroupByID (c : Client) (groupID : String) (t : HttpResult) :
    Request × OpOutcome GroupsResponse GroupErrorResponse :=
  let fullUrl := c.BaseUrl ++ groupPath ++ "/" ++ groupID
  let req := Request.mk "GET" fullUrl [] [] none
  let dr := c.doRequest req t
  (dr.1, parseScim unmarshalGroupsResponse GroupsResponse.Schemas
    unmarshalGroupErrorResponse zeroGroupsResponse zeroGroupErrorResponse dr.2)

/-- GetGroupByName (group.go): a GET on the collection path with a
displayName filter query parameter. -/
def Client.GetGroupByName (c : Client) (groupName : String) (t : HttpResult) :
    Request × OpOutcome GroupsResponse GroupErrorResponse :=
  let fullUrl := c.BaseUrl ++ groupPath
  let filter := "displayName eq \"" ++ groupName ++ "\""
  let req := Request.mk "GET" fullUrl [("filter", filter)] [] none
  let dr := c.doRequest req t
  (dr.1, parseScim unmarshalGroupsResponse GroupsResponse.Schemas
    unmarshalGroupErrorResponse zeroGroupsResponse zeroGroupErrorResponse dr.2)

/-- GroupMemberOps (group.go): builds an UpdateGroup with a single patch
operation (the given verb, path "members", one value entry with the user
id), fills defaults, and PATCHes the single-group path. -/
def Client.GroupMemberOps (c : Client) (groupID : String) (userID : String)
    (operation : String) (t : HttpResult) :
    Request × OpOutcome GroupResponse GroupErrorResponse :=
  let fullUrl := c.BaseUrl ++ groupPath ++ "/" ++ groupID
  let updateGroup := UpdateGroup.mk []
    [OperationEntry.mk operation "members" [ValueEntry.mk userID]]
  let updateGroup := updateGroup.fill_defaults
  let putBody := marshalUpdateGroup updateGroup
  let req := Request.mk "PATCH" fullUrl [] [] (some putBody)
  let dr := c.doRequest req t
  (dr.1, parseScim unmarshalGroupResponse GroupResponse.Schemas
    unmarshalGroupErrorResponse zeroGroupResponse zeroGroupErrorResponse dr.2)

/-- AddUserToGroup (group.go): GroupMemberOps with verb "Add". -/
def Client.AddUserToGroup (c : Client) (groupID : String) (userID : String)
    (t : HttpResult) : Request × OpOutcome GroupResponse GroupErrorResponse :=
  c.GroupMemberOps groupID userID "Add" t

/-- RemoveUserToGroup (group.go): GroupMemberOps with verb "Remove". -/
def Client.RemoveUserToGroup (c : Client) (groupID : String) (userID : String)
    (t : HttpResult) : Request × OpOutcome GroupResponse GroupErrorResponse :=
  c.GroupMemberOps groupID userID "Remove" t

/-- DeleteGroup (group.go): DELETE on the single-group path; the response
body is never decoded and only the error is returned. -/
def Client.DeleteGroup (c : Client) (groupID : String) (t : HttpResult) :
    Request × Option GoError :=
  let fullUrl := c.BaseUrl ++ groupPath ++ "/" ++ groupID
  let req := Request.mk "DELETE" fullUrl [] [] none
  let dr := c.doRequest req t
  (dr.1, deleteResult dr.2)

/-- Option JVal body lookup used to state facts about marshalled request
bodies. -/
def jsonLookup : Option JVal → String → Option JVal
  | some (.jobj fs), k => getField fs k
  | _, _ => none

-- ---------------------------------------------------------------------------
-- Helper lemmas
-- ---------------------------------------------------------------------------

theorem excBindOkIff {α β : Type} (x : Except String α) (f : α → Except String β) (b : β) :
    (x >>= f = Except.ok b) ↔ ∃ a, x = Except.ok a ∧ f a = Except.ok b := by
  cases x with
  | error m =>
    simp only [show ((Except.error m : Except String α) >>= f) = (Except.error m : Except String β) from rfl]
    constructor
    · intro h; cases h
    · rintro ⟨a, ha, -⟩; cases ha
  | ok a =>
    simp only [show ((Except.ok a : Except String α) >>= f) = f a from rfl]
    constructor
    · intro h; exact ⟨a, rfl, h⟩
    · rintro ⟨a2, ha2, hf⟩; cases ha2; exact hf

theorem decodeUsersResponseFields_schemas (fs : List (String × JVal)) (s : UsersResponse)
    (h : decodeUsersResponseFields fs = .ok s) :
    decodeStringList (getField fs "schemas") = .ok s.Schemas := by
  unfold decodeUsersResponseFields at h
  simp only [excBindOkIff, Except.ok.injEq] at h
  obtain ⟨tr, -, l, hl, rs, -, heq⟩ := h
  subst heq
  exact hl

theorem decodeUserResponseFields_schemas (fs : List (String × JVal)) (s : UserResponse)
    (h : decodeUserResponseFields fs = .ok s) :
    decodeStringList (getField fs "schemas") = .ok s.Schemas := by
  unfold decodeUserResponseFields at h
  simp only [excBindOkIff, Except.ok.injEq] at h
  obtain ⟨l, hl, a2, -, a3, -, a4, -, a5, -, a6, -, a7, -, a8, -, a9, -, a10, -, heq⟩ := h
  subst heq
  exact hl

theorem decodeUserErrorResponseFields_schemas (fs : List (String × JVal)) (e : UserErrorResponse)
    (h : decodeUserErrorResponseFields fs = .ok e) :
    decodeStringList (getField fs "schemas") = .ok e.Schemas := by
  unfold decodeUserErrorResponseFields at h
  simp only [excBindOkIff, Except.ok.injEq] at h
  obtain ⟨l, hl, a2, -, a3, -, a4, -, heq⟩ := h
  subst heq
  exact hl

theorem decodeGroupResponseFields_schemas (fs : List (String × JVal)) (s : GroupResponse)
    (h : decodeGroupResponseFields fs = .ok s) :
    decodeStringList (getField fs "schemas") = .ok s.Schemas := by
  unfold decodeGroupResponseFields at h
  simp only [excBindOkIff, Except.ok.injEq] at h
  obtain ⟨l, hl, a2, -, a3, -, a4, -, a5, -, heq⟩ := h
  subst heq
  exact hl

theorem decodeGroupsResponseFields_schemas (fs : List (String × JVal)) (s : GroupsResponse)
    (h : decodeGroupsResponseFields fs = .ok s) :
    decodeStringList (getField fs "schemas") = .ok s.Schemas := by
  unfold decodeGroupsResponseFields at h
  simp only [excBindOkIff, Except.ok.injEq] at h
  obtain ⟨tr, -, l, hl, rs, -, heq⟩ := h
  subst heq
  exact hl

theorem decodeGroupErrorResponseFields_schemas (fs : List (String × JVal)) (e : GroupErrorResponse)
    (h : decodeGroupErrorResponseFields fs = .ok e) :
    decodeStringList (getField fs "schemas") = .ok e.Schemas := by
  unfold decodeGroupErrorResponseFields at h
  simp only [excBindOkIff, Except.ok.injEq] at h
  obtain ⟨l, hl, a2, -, a3, -, a4, -, heq⟩ := h
  subst heq
  exact hl

/-- When the same raw body decodes into UsersResponse and into
UserErrorResponse, the two schema lists coincide (both decoders read the
same schemas field). -/
theorem usersErr_same_schemas (b : Option JVal) (s : UsersResponse) (e : UserErrorResponse)
    (hs : unmarshalUsersResponse b = .ok s) (he : unmarshalUserErrorResponse b = .ok e) :
    e.Schemas = s.Schemas := by
  cases b with
  | none => simp [unmarshalUsersResponse] at hs
  | some v =>
    cases v with
    | jnull =>
      simp only [unmarshalUsersResponse, Except.ok.injEq] at hs
      simp only [unmarshalUserErrorResponse, Except.ok.injEq] at he
      rw [← hs, ← he]
      rfl
    | jobj fs =>
      have h1 := decodeUsersResponseFields_schemas fs s hs
      have h2 := decodeUserErrorResponseFields_schemas fs e he
      have h3 := h1.symm.trans h2
      injection h3 with h4
      exact h4.symm
    | jbool bb => simp [unmarshalUsersResponse] at hs
    | jnum n => simp [unmarshalUsersResponse] at hs
    | jstr str => simp [unmarshalUsersResponse] at hs
    | jarr xs => simp [unmarshalUsersResponse] at hs

/-- Same-schemas fact for the GetUser-style operations: UserResponse and
UserErrorResponse decoded from the same raw body agree on schemas. -/
theorem userErr_same_schemas (b : Option JVal) (s : UserResponse) (e : UserErrorResponse)
    (hs : unmarshalUserResponse b = .ok s) (he : unmarshalUserErrorResponse b = .ok e) :
    e.Schemas = s.Schemas := by
  cases b with
  | none => simp [unmarshalUserResponse] at hs
  | some v =>
    cases v with
    | jnull =>
      simp only [unmarshalUserResponse, Except.ok.injEq] at hs
      simp only [unmarshalUserErrorResponse, Except.ok.injEq] at he
      rw [← hs, ← he]
      rfl
    | jobj fs =>
      have h1 := decodeUserResponseFields_schemas fs s hs
      have h2 := decodeUserErrorResponseFields_schemas fs e he
      have h3 := h1.symm.trans h2
      injection h3 with h4
      exact h4.symm
    | jbool bb => simp [unmarshalUserResponse] at hs
    | jnum n => simp [unmarshalUserResponse] at hs
    | jstr str => simp [unmarshalUserResponse] at hs
    | jarr xs => simp [unmarshalUserResponse] at hs

/-- Same-schemas fact for GroupResponse and GroupErrorResponse. -/
theorem groupErr_same_schemas (b : Option JVal) (s : GroupResponse) (e : GroupErrorResponse)
    (hs : unmarshalGroupResponse b = .ok s) (he : unmarshalGroupErrorResponse b = .ok e) :
    e.Schemas = s.Schemas := by
  cases b with
  | none => simp [unmarshalGroupResponse] at hs
  | some v =>
    cases v with
    | jnull =>
      simp only [unmarshalGroupResponse, Except.ok.injEq] at hs
      simp only [unmarshalGroupErrorResponse, Except.ok.injEq] at he
      rw [← hs, ← he]
      rfl
    | jobj fs =>
      have h1 := decodeGroupResponseFields_schemas fs s hs
      have h2 := decodeGroupErrorResponseFields_schemas fs e he
      have h3 := h1.symm.trans h2
      injection h3 with h4
      exact h4.symm
    | jbool bb => simp [unmarshalGroupResponse] at hs
    | jnum n => simp [unmarshalGroupResponse] at hs
    | jstr str => simp [unmarshalGroupResponse] at hs
    | jarr xs => simp [unmarshalGroupResponse] at hs

/-- Same-schemas fact for GroupsResponse and GroupErrorResponse. -/
theorem groupsErr_same_schemas (b : Option JVal) (s : GroupsResponse) (e : GroupErrorResponse)
    (hs : unmarshalGroupsResponse b = .ok s) (he : unmarshalGroupErrorResponse b = .ok e) :
    e.Schemas = s.Schemas := by
  cases b with
  | none => simp [unmarshalGroupsResponse] at hs
  | some v =>
    cases v with
    | jnull =>
      simp only [unmarshalGroupsResponse, Except.ok.injEq] at hs
      simp only [unmarshalGroupErrorResponse, Except.ok.injEq] at he
      rw [← hs, ← he]
      rfl
    | jobj fs =>
      have h1 := decodeGroupsResponseFields_schemas fs s hs
      have h2 := decodeGroupErrorResponseFields_schemas fs e he
      have h3 := h1.symm.trans h2
      injection h3 with h4
      exact h4.symm
    | jbool bb => simp [unmarshalGroupsResponse] at hs
    | jnum n => simp [unmarshalGroupsResponse] at hs
    | jstr str => simp [unmarshalGroupsResponse] at hs
    | jarr xs => simp [unmarshalGroupsResponse] at hs

/-- The uniform behaviour of the shared response-handling tail when the
transport succeeded, the success decode succeeded, the schema list is
non-empty, and the error decode succeeds whenever the sentinel matches:
the operation returns the decoded success shape, a nil error, and an error
shape that is non-zero exactly when the first schema entry is the error
sentinel. -/
theorem parseScim_success_spec {α ε : Type}
    (dec : Option JVal → Except String α) (schemasOf : α → List String)
    (decErr : Option JVal → Except String ε) (z : α) (zErr : ε)
    (schemasOfErr : ε → List String)
    (hsame : ∀ b s e, dec b = .ok s → decErr b = .ok e → schemasOfErr e = schemasOf s)
    (hzErr : schemasOfErr zErr = [])
    (b : Option JVal) (s : α)
    (hdec : dec b = .ok s) (hne : schemasOf s ≠ [])
    (herr : (schemasOf s).head? = some errorSchemaUrn → ∃ e, decErr b = .ok e) :
    ∃ e, parseScim dec schemasOf decErr z zErr (.ok b) = .ret s e none ∧
      (¬ e = zErr ↔ (schemasOf s).head? = some errorSchemaUrn) := by
  cases hl : schemasOf s with
  | nil => exact absurd hl hne
  | cons s0 rest =>
    by_cases hs0 : s0 = errorSchemaUrn
    · obtain ⟨e, he⟩ := herr (by rw [hl]; simp [hs0])
      refine ⟨e, ?_, ?_⟩
      · simp [parseScim, hdec, hl, hs0, he]
      · have hse : schemasOfErr e = s0 :: rest := by rw [hsame b s e hdec he, hl]
        constructor
        · intro _
          simp [hs0]
        · intro _ heq
          rw [heq, hzErr] at hse
          cases hse
    · refine ⟨zErr, ?_, ?_⟩
      · simp [parseScim, hdec, hl, hs0]
      · constructor
        · intro hne2
          exact absurd rfl hne2
        · intro hh
          simp at hh
          exact absurd hh hs0

-- ---------------------------------------------------------------------------
-- Claim theorems
-- ---------------------------------------------------------------------------

/-- Claim C3: for the four default-filling resource types, fill_defaults is
idempotent, leaves a non-empty schema list unchanged (hence never removes
or reorders caller-supplied schema entries), never overwrites a non-empty
User timezone, and never touches any other caller-supplied field. -/
theorem scim_fill_defaults_algebra :
    (∀ u : User, u.fill_defaults.fill_defaults = u.fill_defaults) ∧
    (∀ g : Group, g.fill_defaults.fill_defaults = g.fill_defaults) ∧
    (∀ b : UserTypeBody, b.fill_defaults.fill_defaults = b.fill_defaults) ∧
    (∀ ug : UpdateGroup, ug.fill_defaults.fill_defaults = ug.fill_defaults) ∧
    (∀ u : User, u.Schemas ≠ [] → u.fill_defaults.Schemas = u.Schemas) ∧
    (∀ g : Group, g.Schemas ≠ [] → g.fill_defaults.Schemas = g.Schemas) ∧
    (∀ b : UserTypeBody, b.Schemas ≠ [] → b.fill_defaults.Schemas = b.Schemas) ∧
    (∀ ug : UpdateGroup, ug.Schemas ≠ [] → ug.fill_defaults.Schemas = ug.Schemas) ∧
    (∀ u : User, u.Timezone ≠ "" → u.fill_defaults.Timezone = u.Timezone) ∧
    (∀ u : User, u.fill_defaults.UserName = u.UserName ∧ u.fill_defaults.Name = u.Name ∧
      u.fill_defaults.Emails = u.Emails ∧ u.fill_defaults.Active = u.Active) ∧
    (∀ g : Group, g.fill_defaults.DisplayName = g.DisplayName) ∧
    (∀ b : UserTypeBody, b.fill_defaults.UrnIetfParamsScimSchemasExtensionNewrelic21User =
      b.UrnIetfParamsScimSchemasExtensionNewrelic21User) ∧
    (∀ ug : UpdateGroup, ug.fill_defaults.Operations = ug.Operations) := by
  refine ⟨?_, ?_, ?_, ?_, ?_, ?_, ?_, ?_, ?_, ?_, ?_, ?_, ?_⟩
  · intro u
    by_cases h1 : u.Schemas.length = 0 <;> by_cases h2 : u.Timezone = "" <;>
      simp [User.fill_defaults, h1, h2]
  · intro g
    by_cases h1 : g.Schemas.length = 0 <;> simp [Group.fill_defaults, h1]
  · intro b
    by_cases h1 : b.Schemas.length = 0 <;> simp [UserTypeBody.fill_defaults, h1]
  · intro ug
    by_cases h1 : ug.Schemas.length = 0 <;> simp [UpdateGroup.fill_defaults, h1]
  · intro u h
    have h1 : ¬ u.Schemas.length = 0 := by simp [List.length_eq_zero, h]
    by_cases h2 : u.Timezone = "" <;> simp [User.fill_defaults, h1, h2]
  · intro g h
    have h1 : ¬ g.Schemas.length = 0 := by simp [List.length_eq_zero, h]
    simp [Group.fill_defaults, h1]
  · intro b h
    have h1 : ¬ b.Schemas.length = 0 := by simp [List.length_eq_zero, h]
    simp [UserTypeBody.fill_defaults, h1]
  · intro ug h
    have h1 : ¬ ug.Schemas.length = 0 := by simp [List.length_eq_zero, h]
    simp [UpdateGroup.fill_defaults, h1]
  · intro u h2
    by_cases h1 : u.Schemas.length = 0 <;> simp [User.fill_defaults, h1, h2]
  · intro u
    by_cases h1 : u.Schemas.length = 0 <;> by_cases h2 : u.Timezone = "" <;>
      simp [User.fill_defaults, h1, h2]
  · intro g
    by_cases h1 : g.Schemas.length = 0 <;> simp [Group.fill_defaults, h1]
  · intro b
    by_cases h1 : b.Schemas.length = 0 <;> simp [UserTypeBody.fill_defaults, h1]
  · intro ug
    by_cases h1 : ug.Schemas.length = 0 <;> simp [UpdateGroup.fill_defaults, h1]

/-- Claim C3 witness: the hypothesis-bearing conjuncts of
scim_fill_defaults_algebra applied at concrete non-empty inputs. -/
theorem scim_fill_defaults_algebra_witness :
    (User.mk ["a"] "n" zeroNameParts [] true "tz").fill_defaults.Schemas = ["a"] ∧
    (User.mk [] "n" zeroNameParts [] true "tz").fill_defaults.Timezone = "tz" ∧
    (Group.mk ["b"] "d").fill_defaults.Schemas = ["b"] ∧
    (UserTypeBody.mk ["c"] (NrUserTypeBlock.mk "x")).fill_defaults.Schemas = ["c"] ∧
    (UpdateGroup.mk ["d"] []).fill_defaults.Schemas = ["d"] :=
  ⟨scim_fill_defaults_algebra.2.2.2.2.1 _ (by decide),
   scim_fill_defaults_algebra.2.2.2.2.2.2.2.2.1 _ (by decide),
   scim_fill_defaults_algebra.2.2.2.2.2.1 _ (by decide),
   scim_fill_defaults_algebra.2.2.2.2.2.2.1 _ (by decide),
   scim_fill_defaults_algebra.2.2.2.2.2.2.2.1 _ (by decide)⟩

/-- Claim C2: every body-parsing operation reads element 0 of the decoded
schema list unconditionally, so a 2xx response whose body is the empty
JSON object (which decodes successfully, leaving an empty schema list)
makes every one of the twelve body-parsing operations end in an
index-out-of-range panic instead of returning an error value. -/
theorem scim_empty_schemas_panic :
    ∀ (c : Client) (userID groupID userName groupName operation : String)
      (user : User) (userType : UserType),
    (c.UserList (.response 200 (some (.jobj [])))).2 =
      OpOutcome.panic "runtime error: index out of range [0] with length 0" ∧
    (c.GetUserByID userID (.response 200 (some (.jobj [])))).2 =
      OpOutcome.panic "runtime error: index out of range [0] with length 0" ∧
    (c.GetUserByName userName (.response 200 (some (.jobj [])))).2 =
      OpOutcome.panic "runtime error: index out of range [0] with length 0" ∧
    (c.CreateUser user (.response 200 (some (.jobj [])))).2 =
      OpOutcome.panic "runtime error: index out of range [0] with length 0" ∧
    (c.UpdateUser userID user (.response 200 (some (.jobj [])))).2 =
      OpOutcome.panic "runtime error: index out of range [0] with length 0" ∧
    (c.ChangeUserType userID userType (.response 200 (some (.jobj [])))).2 =
      OpOutcome.panic "runtime error: index out of range [0] with length 0" ∧
    (c.CreateGroup groupName (.response 200 (some (.jobj [])))).2 =
      OpOutcome.panic "runtime error: index out of range [0] with length 0" ∧
    (c.UpdateGroup groupName (.response 200 (some (.jobj [])))).2 =
      OpOutcome.panic "runtime error: index out of range [0] with length 0" ∧
    (c.GroupList (.response 200 (some (.jobj [])))).2 =
      OpOutcome.panic "runtime error: index out of range [0] with length 0" ∧
    (c.GetGroupByID groupID (.response 200 (some (.jobj [])))).2 =
      OpOutcome.panic "runtime error: index out of range [0] with length 0" ∧
    (c.GetGroupByName groupName (.response 200 (some (.jobj [])))).2 =
      OpOutcome.panic "runtime error: index out of range [0] with length 0" ∧
    (c.GroupMemberOps groupID userID operation (.response 200 (some (.jobj [])))).2 =
      OpOutcome.panic "runtime error: index out of range [0] with length 0" :=
  fun _ _ _ _ _ _ _ _ =>
    ⟨rfl, rfl, rfl, rfl, rfl, rfl, rfl, rfl, rfl, rfl, rfl, rfl⟩

/-- Claim C10: the source passes the literal "Get" (not "GET") as the HTTP
method of the two list operations, and net/http sends the method string
verbatim, so the issued method is "Get". -/
theorem scim_list_method_literal :
    ∀ (c : Client) (t : HttpResult),
    ((c.UserList t).1).method = "Get" ∧ ((c.GroupList t).1).method = "Get" ∧
    ("Get" : String) ≠ "GET" :=
  fun _ _ => ⟨rfl, rfl, by decide⟩

/-- Claim C7: the filtered searches attach a query parameter named filter
whose pre-encoding value is the attribute name, eq, and the double-quoted
argument; in particular jdoe and Admins give the expected values. -/
theorem scim_filter_query_construction :
    ∀ (c : Client) (t : HttpResult) (userName groupName : String),
    ((c.GetUserByName userName t).1).query =
      [("filter", "userName eq \"" ++ userName ++ "\"")] ∧
    ((c.GetGroupByName groupName t).1).query =
      [("filter", "displayName eq \"" ++ groupName ++ "\"")] ∧
    ((c.GetUserByName "jdoe" t).1).query = [("filter", "userName eq \"jdoe\"")] ∧
    ((c.GetGroupByName "Admins" t).1).query = [("filter", "displayName eq \"Admins\"")] :=
  fun _ _ _ _ => ⟨rfl, rfl, rfl, rfl⟩

/-- Claim C6: AddUserToGroup for user u-123 and group g-456 sends a PATCH
to Groups/g-456 whose body renders exactly to the expected PatchOp JSON;
RemoveUserToGroup differs only in the op verb. -/
theorem scim_group_member_patch_body :
    ∀ (c : Client) (t : HttpResult),
    ((c.AddUserToGroup "g-456" "u-123" t).1).method = "PATCH" ∧
    ((c.AddUserToGroup "g-456" "u-123" t).1).url = c.BaseUrl ++ "Groups/g-456" ∧
    (∃ bo, ((c.AddUserToGroup "g-456" "u-123" t).1).body = some bo ∧
      renderJVal bo = "\x7b\"schemas\":[\"urn:ietf:params:scim:api:messages:2.0:PatchOp\"],\"Operations\":[\x7b\"op\":\"Add\",\"path\":\"members\",\"value\":[\x7b\"value\":\"u-123\"\x7d]\x7d]\x7d") ∧
    ((c.RemoveUserToGroup "g-456" "u-123" t).1).method = "PATCH" ∧
    ((c.RemoveUserToGroup "g-456" "u-123" t).1).url = c.BaseUrl ++ "Groups/g-456" ∧
    (∃ bo, ((c.RemoveUserToGroup "g-456" "u-123" t).1).body = some bo ∧
      renderJVal bo = "\x7b\"schemas\":[\"urn:ietf:params:scim:api:messages:2.0:PatchOp\"],\"Operations\":[\x7b\"op\":\"Remove\",\"path\":\"members\",\"value\":[\x7b\"value\":\"u-123\"\x7d]\x7d]\x7d") := by
  intro c t
  refine ⟨rfl, ?_, ⟨_, rfl, rfl⟩, rfl, ?_, ⟨_, rfl, rfl⟩⟩
  · show c.BaseUrl ++ "Groups" ++ "/" ++ "g-456" = c.BaseUrl ++ "Groups/g-456"
    rw [String.append_assoc, String.append_assoc,
      show ("Groups" : String) ++ ("/" ++ "g-456") = "Groups/g-456" by decide]
  · show c.BaseUrl ++ "Groups" ++ "/" ++ "g-456" = c.BaseUrl ++ "Groups/g-456"
    rw [String.append_assoc, String.append_assoc,
      show ("Groups" : String) ++ ("/" ++ "g-456") = "Groups/g-456" by decide]

/-- Claim C9 counterexample: the schema list that
UserTypeBody.fill_defaults installs is not core followed by the 2.1
vendor-extension URN that keys the body attribute; its second entry is the
2.0 vendor URN. -/
theorem scim_change_user_type_schema_cex :
    (UserTypeBody.mk [] (NrUserTypeBlock.mk (UserType.String Core))).fill_defaults.Schemas ≠
      ["urn:ietf:params:scim:schemas:core:2.0:User",
       "urn:ietf:params:scim:schemas:extension:newrelic:2.1:User"] := by
  decide

/-- Claim C9 amended: ChangeUserType builds a UserTypeBody whose vendor
attribute, keyed by the newrelic 2.1 extension URN, is the display string
of the enumerated value, and whose defaulted schema list is the core User
URN followed by the newrelic 2.0 extension URN, which differs from the 2.1
URN used as the attribute key. -/
theorem scim_change_user_type_body_spec :
    ∀ (c : Client) (userID : String) (t : HttpResult) (userType : UserType),
    UserType.String Full = "Full User" ∧
    UserType.String Core = "Core User" ∧
    UserType.String Basic = "Basic User" ∧
    jsonLookup (c.ChangeUserType userID userType t).1.body
        "urn:ietf:params:scim:schemas:extension:newrelic:2.1:User" =
      some (.jobj [("nrUserType", .jstr (UserType.String userType))]) ∧
    jsonLookup (c.ChangeUserType userID userType t).1.body "schemas" =
      some (.jarr [.jstr "urn:ietf:params:scim:schemas:core:2.0:User",
        .jstr "urn:ietf:params:scim:schemas:extension:newrelic:2.0:User"]) ∧
    ("urn:ietf:params:scim:schemas:extension:newrelic:2.0:User" : String) ≠
      "urn:ietf:params:scim:schemas:extension:newrelic:2.1:User" :=
  fun _ _ _ _ => ⟨rfl, rfl, rfl, rfl, rfl, by decide⟩

theorem parseScim_error {α ε : Type}
    (dec : Option JVal → Except String α) (schemasOf : α → List String)
    (decErr : Option JVal → Except String ε) (z : α) (zErr : ε)
    (tr : Except GoError (Option JVal)) (e : GoError) (h : tr = .error e) :
    parseScim dec schemasOf decErr z zErr tr = .ret z zErr (some e) := by
  rw [h]
  rfl

theorem deleteResult_eq_error (tr : Except GoError (Option JVal)) (e : GoError)
    (h : tr = .error e) : deleteResult tr = some e := by
  rw [h]
  rfl

/-- Claim C5: a User passed to CreateUser with empty Schemas and empty
Timezone produces a request body whose schemas field is exactly the
one-element core User URN list and whose timezone is Europe/Istanbul. -/
theorem scim_create_user_defaults_payload :
    ∀ (c : Client) (u : User) (t : HttpResult), u.Schemas = [] → u.Timezone = "" →
    jsonLookup (c.CreateUser u t).1.body "schemas" =
      some (.jarr [.jstr "urn:ietf:params:scim:schemas:core:2.0:User"]) ∧
    jsonLookup (c.CreateUser u t).1.body "timezone" = some (.jstr "Europe/Istanbul") := by
  intro c u t h1 h2
  have hf : u.fill_defaults = User.mk ["urn:ietf:params:scim:schemas:core:2.0:User"]
      u.UserName u.Name u.Emails u.Active "Europe/Istanbul" := by
    simp [User.fill_defaults, h1, h2]
  have hb : (c.CreateUser u t).1.body = some (marshalUser u.fill_defaults) := rfl
  rw [hb, hf]
  exact ⟨rfl, rfl⟩

/-- Claim C5 witness: the zero-valued User at a concrete client and
transport result. -/
theorem scim_create_user_defaults_payload_witness :
    jsonLookup ((NewClient "tok").CreateUser zeroUser (.netError "down")).1.body "schemas" =
      some (.jarr [.jstr "urn:ietf:params:scim:schemas:core:2.0:User"]) ∧
    jsonLookup ((NewClient "tok").CreateUser zeroUser (.netError "down")).1.body "timezone" =
      some (.jstr "Europe/Istanbul") :=
  scim_create_user_defaults_payload (NewClient "tok") zeroUser (.netError "down") rfl rfl

/-- Claim C8: the delete operations send DELETE to the single-resource
path with no body, return nil for every 2xx response regardless of the
body content, and pass a transport error through. -/
theorem scim_delete_ops_spec :
    ∀ (c : Client) (userID groupID m : String) (statusCode : Int) (b1 b2 : Option JVal),
    ((c.DeleteUser userID (.response statusCode b1)).1).method = "DELETE" ∧
    ((c.DeleteUser userID (.response statusCode b1)).1).url =
      c.BaseUrl ++ ("Users/" ++ userID) ∧
    ((c.DeleteUser userID (.response statusCode b1)).1).body = none ∧
    ((c.DeleteGroup groupID (.response statusCode b1)).1).method = "DELETE" ∧
    ((c.DeleteGroup groupID (.response statusCode b1)).1).url =
      c.BaseUrl ++ ("Groups/" ++ groupID) ∧
    ((c.DeleteGroup groupID (.response statusCode b1)).1).body = none ∧
    (200 ≤ statusCode → statusCode ≤ 299 →
      (c.DeleteUser userID (.response statusCode b1)).2 = none ∧
      (c.DeleteGroup groupID (.response statusCode b2)).2 = none) ∧
    (c.DeleteUser userID (.netError m)).2 = some (.transportErr m) ∧
    (c.DeleteGroup groupID (.netError m)).2 = some (.transportErr m) := by
  intro c userID groupID m statusCode b1 b2
  refine ⟨rfl, ?_, rfl, rfl, ?_, rfl, ?_, rfl, rfl⟩
  · show c.BaseUrl ++ "Users" ++ "/" ++ userID = c.BaseUrl ++ ("Users/" ++ userID)
    rw [String.append_assoc c.BaseUrl "Users" "/",
      show ("Users" : String) ++ "/" = "Users/" by decide, String.append_assoc]
  · show c.BaseUrl ++ "Groups" ++ "/" ++ groupID = c.BaseUrl ++ ("Groups/" ++ groupID)
    rw [String.append_assoc c.BaseUrl "Groups" "/",
      show ("Groups" : String) ++ "/" = "Groups/" by decide, String.append_assoc]
  · intro hlo hhi
    have hok1 : doRequestCore (.response statusCode b1) = .ok b1 := by
      unfold doRequestCore
      exact if_neg (not_not_intro ⟨hlo, hhi⟩)
    have hok2 : doRequestCore (.response statusCode b2) = .ok b2 := by
      unfold doRequestCore
      exact if_neg (not_not_intro ⟨hlo, hhi⟩)
    constructor
    · show deleteResult (doRequestCore (.response statusCode b1)) = none
      rw [hok1]
      rfl
    · show deleteResult (doRequestCore (.response statusCode b2)) = none
      rw [hok2]
      rfl

/-- Claim C8 witness: a 204 delete with a non-empty, non-JSON body still
returns nil for both delete operations. -/
theorem scim_delete_ops_spec_witness :
    ((NewClient "tok").DeleteUser "u-1" (.response 204 none)).2 = none ∧
    ((NewClient "tok").DeleteGroup "g-1" (.response 204 (some (.jstr "junk")))).2 = none :=
  (scim_delete_ops_spec (NewClient "tok") "u-1" "g-1" "m" 204 none
    (some (.jstr "junk"))).2.2.2.2.2.2.1 (by decide) (by decide)

/-- Claim C4: a status code outside 200-299 makes doRequest return an
error carrying the raw body and the status code, and every operation
short-circuits with zero-valued shapes (or, for the deletes, just that
error). -/
theorem scim_non2xx_short_circuit :
    ∀ (c : Client) (statusCode : Int) (body : Option JVal)
      (userID groupID userName groupName operation : String)
      (user : User) (userType : UserType),
    ¬ (200 ≤ statusCode ∧ statusCode ≤ 299) →
    doRequestCore (.response statusCode body) = .error (.httpError body statusCode) ∧
    (c.UserList (.response statusCode body)).2 =
      .ret zeroUsersResponse zeroUserErrorResponse (some (.httpError body statusCode)) ∧
    (c.GetUserByID userID (.response statusCode body)).2 =
      .ret zeroUserResponse zeroUserErrorResponse (some (.httpError body statusCode)) ∧
    (c.GetUserByName userName (.response statusCode body)).2 =
      .ret zeroUserResponse zeroUserErrorResponse (some (.httpError body statusCode)) ∧
    (c.CreateUser user (.response statusCode body)).2 =
      .ret zeroUserResponse zeroUserErrorResponse (some (.httpError body statusCode)) ∧
    (c.UpdateUser userID user (.response statusCode body)).2 =
      .ret zeroUserResponse zeroUserErrorResponse (some (.httpError body statusCode)) ∧
    (c.ChangeUserType userID userType (.response statusCode body)).2 =
      .ret zeroUserResponse zeroUserErrorResponse (some (.httpError body statusCode)) ∧
    (c.CreateGroup groupName (.response statusCode body)).2 =
      .ret zeroGroupResponse zeroGroupErrorResponse (some (.httpError body statusCode)) ∧
    (c.UpdateGroup groupName (.response statusCode body)).2 =
      .ret zeroGroupResponse zeroGroupErrorResponse (some (.httpError body statusCode)) ∧
    (c.GroupList (.response statusCode body)).2 =
      .ret zeroGroupsResponse zeroGroupErrorResponse (some (.httpError body statusCode)) ∧
    (c.GetGroupByID groupID (.response statusCode body)).2 =
      .ret zeroGroupsResponse zeroGroupErrorResponse (some (.httpError body statusCode)) ∧
    (c.GetGroupByName groupName (.response statusCode body)).2 =
      .ret zeroGroupsResponse zeroGroupErrorResponse (some (.httpError body statusCode)) ∧
    (c.GroupMemberOps groupID userID operation (.response statusCode body)).2 =
      .ret zeroGroupResponse zeroGroupErrorResponse (some (.httpError body statusCode)) ∧
    (c.DeleteUser userID (.response statusCode body)).2 =
      some (.httpError body statusCode) ∧
    (c.DeleteGroup groupID (.response statusCode body)).2 =
      some (.httpError body statusCode) := by
  intro c statusCode body userID groupID userName groupName operation user userType h
  have hdr : doRequestCore (.response statusCode body) =
      .error (.httpError body statusCode) := by
    unfold doRequestCore
    exact if_pos h
  exact ⟨hdr,
    parseScim_error _ _ _ _ _ _ _ hdr, parseScim_error _ _ _ _ _ _ _ hdr,
    parseScim_error _ _ _ _ _ _ _ hdr, parseScim_error _ _ _ _ _ _ _ hdr,
    parseScim_error _ _ _ _ _ _ _ hdr, parseScim_error _ _ _ _ _ _ _ hdr,
    parseScim_error _ _ _ _ _ _ _ hdr, parseScim_error _ _ _ _ _ _ _ hdr,
    parseScim_error _ _ _ _ _ _ _ hdr, parseScim_error _ _ _ _ _ _ _ hdr,
    parseScim_error _ _ _ _ _ _ _ hdr, parseScim_error _ _ _ _ _ _ _ hdr,
    deleteResult_eq_error _ _ hdr, deleteResult_eq_error _ _ hdr⟩

/-- Claim C4 witness: a 404 with a textual body, projected to the
doRequest and UserList conjuncts. -/
theorem scim_non2xx_short_circuit_witness :
    doRequestCore (.response 404 (some (.jstr "oops"))) =
      .error (.httpError (some (.jstr "oops")) 404) ∧
    ((NewClient "tok").UserList (.response 404 (some (.jstr "oops")))).2 =
      .ret zeroUsersResponse zeroUserErrorResponse
        (some (.httpError (some (.jstr "oops")) 404)) :=
  ⟨(scim_non2xx_short_circuit (NewClient "tok") 404 (some (.jstr "oops"))
      "u" "g" "un" "gn" "Add" zeroUser Full (by decide)).1,
   (scim_non2xx_short_circuit (NewClient "tok") 404 (some (.jstr "oops"))
      "u" "g" "un" "gn" "Add" zeroUser Full (by decide)).2.1⟩

/-- Claim C1: for each of the twelve body-parsing operations, when the
transport succeeds and the success decode succeeds (with a non-empty
schema list, without which the operation panics instead of returning) and
the error decode succeeds whenever the sentinel matches, the operation
returns a nil top-level error together with an error shape that is
non-zero-valued exactly when the first entry of the decoded schema list is
the error-message schema URN. -/
theorem scim_error_shape_detection :
    (∀ (c : Client) (t : HttpResult) (b : Option JVal) (s : UsersResponse),
      doRequestCore t = .ok b → unmarshalUsersResponse b = .ok s → s.Schemas ≠ [] →
      (s.Schemas.head? = some errorSchemaUrn → ∃ e, unmarshalUserErrorResponse b = .ok e) →
      ∃ e, (c.UserList t).2 = .ret s e none ∧
        (¬ e = zeroUserErrorResponse ↔ s.Schemas.head? = some errorSchemaUrn)) ∧
    (∀ (c : Client) (userID : String) (t : HttpResult) (b : Option JVal) (s : UserResponse),
      doRequestCore t = .ok b → unmarshalUserResponse b = .ok s → s.Schemas ≠ [] →
      (s.Schemas.head? = some errorSchemaUrn → ∃ e, unmarshalUserErrorResponse b = .ok e) →
      ∃ e, (c.GetUserByID userID t).2 = .ret s e none ∧
        (¬ e = zeroUserErrorResponse ↔ s.Schemas.head? = some errorSchemaUrn)) ∧
    (∀ (c : Client) (userName : String) (t : HttpResult) (b : Option JVal) (s : UserResponse),
      doRequestCore t = .ok b → unmarshalUserResponse b = .ok s → s.Schemas ≠ [] →
      (s.Schemas.head? = some errorSchemaUrn → ∃ e, unmarshalUserErrorResponse b = .ok e) →
      ∃ e, (c.GetUserByName userName t).2 = .ret s e none ∧
        (¬ e = zeroUserErrorResponse ↔ s.Schemas.head? = some errorSchemaUrn)) ∧
    (∀ (c : Client) (user : User) (t : HttpResult) (b : Option JVal) (s : UserResponse),
      doRequestCore t = .ok b → unmarshalUserResponse b = .ok s → s.Schemas ≠ [] →
      (s.Schemas.head? = some errorSchemaUrn → ∃ e, unmarshalUserErrorResponse b = .ok e) →
      ∃ e, (c.CreateUser user t).2 = .ret s e none ∧
        (¬ e = zeroUserErrorResponse ↔ s.Schemas.head? = some errorSchemaUrn)) ∧
    (∀ (c : Client) (userID : String) (user : User) (t : HttpResult)
        (b : Option JVal) (s : UserResponse),
      doRequestCore t = .ok b → unmarshalUserResponse b = .ok s → s.Schemas ≠ [] →
      (s.Schemas.head? = some errorSchemaUrn → ∃ e, unmarshalUserErrorResponse b = .ok e) →
      ∃ e, (c.UpdateUser userID user t).2 = .ret s e none ∧
        (¬ e = zeroUserErrorResponse ↔ s.Schemas.head? = some errorSchemaUrn)) ∧
    (∀ (c : Client) (userID : String) (userType : UserType) (t : HttpResult)
        (b : Option JVal) (s : UserResponse),
      doRequestCore t = .ok b → unmarshalUserResponse b = .ok s → s.Schemas ≠ [] →
      (s.Schemas.head? = some errorSchemaUrn → ∃ e, unmarshalUserErrorResponse b = .ok e) →
      ∃ e, (c.ChangeUserType userID userType t).2 = .ret s e none ∧
        (¬ e = zeroUserErrorResponse ↔ s.Schemas.head? = some errorSchemaUrn)) ∧
    (∀ (c : Client) (groupName : String) (t : HttpResult) (b : Option JVal) (s : GroupResponse),
      doRequestCore t = .ok b → unmarshalGroupResponse b = .ok s → s.Schemas ≠ [] →
      (s.Schemas.head? = some errorSchemaUrn → ∃ e, unmarshalGroupErrorResponse b = .ok e) →
      ∃ e, (c.CreateGroup groupName t).2 = .ret s e none ∧
        (¬ e = zeroGroupErrorResponse ↔ s.Schemas.head? = some errorSchemaUrn)) ∧
    (∀ (c : Client) (groupName : String) (t : HttpResult) (b : Option JVal) (s : GroupResponse),
      doRequestCore t = .ok b → unmarshalGroupResponse b = .ok s → s.Schemas ≠ [] →
      (s.Schemas.head? = some errorSchemaUrn → ∃ e, unmarshalGroupErrorResponse b = .ok e) →
      ∃ e, (c.UpdateGroup groupName t).2 = .ret s e none ∧
        (¬ e = zeroGroupErrorResponse ↔ s.Schemas.head? = some errorSchemaUrn)) ∧
    (∀ (c : Client) (t : HttpResult) (b : Option JVal) (s : GroupsResponse),
      doRequestCore t = .ok b → unmarshalGroupsResponse b = .ok s → s.Schemas ≠ [] →
      (s.Schemas.head? = some errorSchemaUrn → ∃ e, unmarshalGroupErrorResponse b = .ok e) →
      ∃ e, (c.GroupList t).2 = .ret s e none ∧
        (¬ e = zeroGroupErrorResponse ↔ s.Schemas.head? = some errorSchemaUrn)) ∧
    (∀ (c : Client) (groupID : String) (t : HttpResult) (b : Option JVal) (s : GroupsResponse),
      doRequestCore t = .ok b → unmarshalGroupsResponse b = .ok s → s.Schemas ≠ [] →
      (s.Schemas.head? = some errorSchemaUrn → ∃ e, unmarshalGroupErrorResponse b = .ok e) →
      ∃ e, (c.GetGroupByID groupID t).2 = .ret s e none ∧
        (¬ e = zeroGroupErrorResponse ↔ s.Schemas.head? = some errorSchemaUrn)) ∧
    (∀ (c : Client) (groupName : String) (t : HttpResult) (b : Option JVal) (s : GroupsResponse),
      doRequestCore t = .ok b → unmarshalGroupsResponse b = .ok s → s.Schemas ≠ [] →
      (s.Schemas.head? = some errorSchemaUrn → ∃ e, unmarshalGroupErrorResponse b = .ok e) →
      ∃ e, (c.GetGroupByName groupName t).2 = .ret s e none ∧
        (¬ e = zeroGroupErrorResponse ↔ s.Schemas.head? = some errorSchemaUrn)) ∧
    (∀ (c : Client) (groupID userID operation : String) (t : HttpResult)
        (b : Option JVal) (s : GroupResponse),
      doRequestCore t = .ok b → unmarshalGroupResponse b = .ok s → s.Schemas ≠ [] →
      (s.Schemas.head? = some errorSchemaUrn → ∃ e, unmarshalGroupErrorResponse b = .ok e) →
      ∃ e, (c.GroupMemberOps groupID userID operation t).2 = .ret s e none ∧
        (¬ e = zeroGroupErrorResponse ↔ s.Schemas.head? = some errorSchemaUrn)) := by
  refine ⟨?_, ?_, ?_, ?_, ?_, ?_, ?_, ?_, ?_, ?_, ?_, ?_⟩
  · intro c t b s hdr hdec hne herr
    have hstep : (c.UserList t).2 = parseScim unmarshalUsersResponse UsersResponse.Schemas
        unmarshalUserErrorResponse zeroUsersResponse zeroUserErrorResponse
        (doRequestCore t) := rfl
    rw [hstep, hdr]
    exact parseScim_success_spec _ _ _ _ _ UserErrorResponse.Schemas
      usersErr_same_schemas rfl b s hdec hne herr
  · intro c userID t b s hdr hdec hne herr
    have hstep : (c.GetUserByID userID t).2 = parseScim unmarshalUserResponse
        UserResponse.Schemas unmarshalUserErrorResponse zeroUserResponse
        zeroUserErrorResponse (doRequestCore t) := rfl
    rw [hstep, hdr]
    exact parseScim_success_spec _ _ _ _ _ UserErrorResponse.Schemas
      userErr_same_schemas rfl b s hdec hne herr
  · intro c userName t b s hdr hdec hne herr
    have hstep : (c.GetUserByName userName t).2 = parseScim unmarshalUserResponse
        UserResponse.Schemas unmarshalUserErrorResponse zeroUserResponse
        zeroUserErrorResponse (doRequestCore t) := rfl
    rw [hstep, hdr]
    exact parseScim_success_spec _ _ _ _ _ UserErrorResponse.Schemas
      userErr_same_schemas rfl b s hdec hne herr
  · intro c user t b s hdr hdec hne herr
    have hstep : (c.CreateUser user t).2 = parseScim unmarshalUserResponse
        UserResponse.Schemas unmarshalUserErrorResponse zeroUserResponse
        zeroUserErrorResponse (doRequestCore t) := rfl
    rw [hstep, hdr]
    exact parseScim_success_spec _ _ _ _ _ UserErrorResponse.Schemas
      userErr_same_schemas rfl b s hdec hne herr
  · intro c userID user t b s hdr hdec hne herr
    have hstep : (c.UpdateUser userID user t).2 = parseScim unmarshalUserResponse
        UserResponse.Schemas unmarshalUserErrorResponse zeroUserResponse
        zeroUserErrorResponse (doRequestCore t) := rfl
    rw [hstep, hdr]
    exact parseScim_success_spec _ _ _ _ _ UserErrorResponse.Schemas
      userErr_same_schemas rfl b s hdec hne herr
  · intro c userID userType t b s hdr hdec hne herr
    have hstep : (c.ChangeUserType userID userType t).2 = parseScim unmarshalUserResponse
        UserResponse.Schemas unmarshalUserErrorResponse zeroUserResponse
        zeroUserErrorResponse (doRequestCore t) := rfl
    rw [hstep, hdr]
    exact parseScim_success_spec _ _ _ _ _ UserErrorResponse.Schemas
      userErr_same_schemas rfl b s hdec hne herr
  · intro c groupName t b s hdr hdec hne herr
    have hstep : (c.CreateGroup groupName t).2 = parseScim unmarshalGroupResponse
        GroupResponse.Schemas unmarshalGroupErrorResponse zeroGroupResponse
        zeroGroupErrorResponse (doRequestCore t) := rfl
    rw [hstep, hdr]
    exact parseScim_success_spec _ _ _ _ _ GroupErrorResponse.Schemas
      groupErr_same_schemas rfl b s hdec hne herr
  · intro c groupName t b s hdr hdec hne herr
    have hstep : (c.UpdateGroup groupName t).2 = parseScim unmarshalGroupResponse
        GroupResponse.Schemas unmarshalGroupErrorResponse zeroGroupResponse
        zeroGroupErrorResponse (doRequestCore t) := rfl
    rw [hstep, hdr]
    exact parseScim_success_spec _ _ _ _ _ GroupErrorResponse.Schemas
      groupErr_same_schemas rfl b s hdec hne herr
  · intro c t b s hdr hdec hne herr
    have hstep : (c.GroupList t).2 = parseScim unmarshalGroupsResponse
        GroupsResponse.Schemas unmarshalGroupErrorResponse zeroGroupsResponse
        zeroGroupErrorResponse (doRequestCore t) := rfl
    rw [hstep, hdr]
    exact parseScim_success_spec _ _ _ _ _ GroupErrorResponse.Schemas
      groupsErr_same_schemas rfl b s hdec hne herr
  · intro c groupID t b s hdr hdec hne herr
    have hstep : (c.GetGroupByID groupID t).2 = parseScim unmarshalGroupsResponse
        GroupsResponse.Schemas unmarshalGroupErrorResponse zeroGroupsResponse
        zeroGroupErrorResponse (doRequestCore t) := rfl
    rw [hstep, hdr]
    exact parseScim_success_spec _ _ _ _ _ GroupErrorResponse.Schemas
      groupsErr_same_schemas rfl b s hdec hne herr
  · intro c groupName t b s hdr hdec hne herr
    have hstep : (c.GetGroupByName groupName t).2 = parseScim unmarshalGroupsResponse
        GroupsResponse.Schemas unmarshalGroupErrorResponse zeroGroupsResponse
        zeroGroupErrorResponse (doRequestCore t) := rfl
    rw [hstep, hdr]
    exact parseScim_success_spec _ _ _ _ _ GroupErrorResponse.Schemas
      groupsErr_same_schemas rfl b s hdec hne herr
  · intro c groupID userID operation t b s hdr hdec hne herr
    have hstep : (c.GroupMemberOps groupID userID operation t).2 = parseScim
        unmarshalGroupResponse GroupResponse.Schemas unmarshalGroupErrorResponse
        zeroGroupResponse zeroGroupErrorResponse (doRequestCore t) := rfl
    rw [hstep, hdr]
    exact parseScim_success_spec _ _ _ _ _ GroupErrorResponse.Schemas
      groupErr_same_schemas rfl b s hdec hne herr

/-- Claim C1 witness: a 200 response whose body is the SCIM error payload,
run through UserList; the decoded schema list starts with the error
sentinel and the error shape is forced non-zero. -/
theorem scim_error_shape_detection_witness :
    ∃ e, ((NewClient "tok").UserList (.response 200 (some (.jobj
        [("schemas", .jarr [.jstr "urn:ietf:params:scim:api:messages:2.0:Error"]),
         ("detail", .jstr "nope"), ("status", .jstr "404")])))).2 =
      .ret (UsersResponse.mk 0 ["urn:ietf:params:scim:api:messages:2.0:Error"] []) e none ∧
      (¬ e = zeroUserErrorResponse ↔
        (UsersResponse.mk 0 ["urn:ietf:params:scim:api:messages:2.0:Error"] []).Schemas.head? =
          some errorSchemaUrn) :=
  scim_error_shape_detection.1 (NewClient "tok")
    (.response 200 (some (.jobj
      [("schemas", .jarr [.jstr "urn:ietf:params:scim:api:messages:2.0:Error"]),
       ("detail", .jstr "nope"), ("status", .jstr "404")])))
    (some (.jobj
      [("schemas", .jarr [.jstr "urn:ietf:params:scim:api:messages:2.0:Error"]),
       ("detail", .jstr "nope"), ("status", .jstr "404")]))
    (UsersResponse.mk 0 ["urn:ietf:params:scim:api:messages:2.0:Error"] [])
    rfl rfl (by decide)
    (fun _ => ⟨UserErrorResponse.mk ["urn:ietf:params:scim:api:messages:2.0:Error"]
      "" "nope" "404", rfl⟩)

end NewRelicScim
